import Mathlib

/-!
Verification of the flight-tracker polling core
(`src/services/FlightRadarController.ts`).

The controller is embedded as a small-step labeled transition system.
Controller fields (`state`, `failures`, `currentProviderIndex`, `lat`,
`lon`, `rangeKm`, `sessionId`) are carried in `Ctrl`; the surrounding
JavaScript event loop is made explicit: a `World` additionally records
the outstanding asynchronous operations (a pending `setTimeout` timer,
an in-flight fetch, or a fetch that has settled but whose `scanLoop`
continuation has not yet run), together with the `this.timer` /
`this.abortController` references used by `cleanup`.

Numbers are embedded as rationals (the code only compares, adds and
multiplies them); the normalizer's trigonometric projection is embedded
over `ℝ` in a second layer further down.
-/

namespace FlightRadar

/-- `SystemState` from FlightRadarController.ts line 5. -/
inductive SystemState
  | IDLE | SCANNING | RECOVERY | FAULT
deriving DecidableEq, Repr

/-- Log levels of `LogEntry.level`. -/
inductive LogLevel
  | INFO | WARN | ERROR | SUCCESS
deriving DecidableEq, Repr

/-- `PROVIDER_ORDER` (line 35).  Providers are embedded as their runtime
string values, since `setConfig` may at runtime receive a string outside
the declared union type. -/
def PROVIDER_ORDER : List String := ["ADSB_LOL", "AIRPLANES_LIVE", "OPENSKY"]

/-- `MAX_FAILURES_PER_PROVIDER` (line 34). -/
def MAX_FAILURES_PER_PROVIDER : Nat := 2

/-- The mutable fields of `FlightRadarController`. -/
structure Ctrl where
  state : SystemState
  failures : Nat
  currentProviderIndex : Nat
  lat : ℚ
  lon : ℚ
  rangeKm : ℚ
  sessionId : Nat
deriving DecidableEq, Repr

/-- Field initializers of the class (lines 25-44). -/
def initCtrl : Ctrl :=
  { state := .IDLE, failures := 0, currentProviderIndex := 0,
    lat := 0, lon := 0, rangeKm := 50, sessionId := 0 }

/-- How a dispatched fetch settles: resolved with a payload that
normalizes to `targetCount` targets, rejected with `AbortError`, or
rejected with any other (transport/parse) error. -/
inductive Outcome
  | success (targetCount : Nat)
  | aborted
  | failure
deriving DecidableEq, Repr

/-- One outstanding asynchronous operation of the event loop:
a timer armed by `scheduleNext`, an in-flight fetch dispatched by
`scanLoop`, or a fetch whose promise has settled while the `scanLoop`
continuation after the `await` has not run yet. -/
inductive PendingOp
  | timer (token : Nat) (delayMs : Nat)
  | fetchPending (token : Nat) (provider : String)
  | settled (token : Nat) (provider : String) (out : Outcome)
deriving DecidableEq, Repr

/-- Controller plus event-loop bookkeeping.  `timerRef` models
`this.timer`, `abortRef` models `this.abortController` (by the id of the
fetch it can cancel); `tasks` lists outstanding operations by id. -/
structure World where
  ctrl : Ctrl
  tasks : List (Nat × PendingOp)
  nextId : Nat
  timerRef : Option Nat
  abortRef : Option Nat
deriving DecidableEq, Repr

/-- Observable outputs of one synchronous step: diagnostic log events
(`this.log`) and snapshots pushed to the update callback
(`this.dispatch`), in emission order. -/
inductive Emit
  | log (lvl : LogLevel) (msg : String)
  | snapshot (targetCount : Nat) (st : SystemState) (provider : String)
deriving DecidableEq, Repr

/-- The initial world: a freshly constructed controller, no outstanding
asynchronous operations. -/
def initWorld : World :=
  { ctrl := initCtrl, tasks := [], nextId := 0, timerRef := none, abortRef := none }

/-- `PROVIDER_ORDER[this.currentProviderIndex]` (line 127). -/
def currentProvider (c : Ctrl) : String :=
  PROVIDER_ORDER.getD c.currentProviderIndex ""

/-- `abortController.abort()` acting on one outstanding operation: an
in-flight fetch is forced to settle with `AbortError`; a fetch that has
already settled, and timers, are unaffected. -/
def abortOp : PendingOp → PendingOp
  | .fetchPending tok p => .settled tok p .aborted
  | op => op

/-- `cleanup` (lines 98-103): clear the timer referenced by `this.timer`
(if any), abort the fetch referenced by `this.abortController` (if any),
then null both references. -/
def cleanupW (w : World) : World :=
  let tasks1 := match w.timerRef with
    | some tid => w.tasks.filter (fun it => it.1 ≠ tid)
    | none => w.tasks
  let tasks2 := match w.abortRef with
    | some aid => tasks1.map (fun it => if it.1 = aid then (it.1, abortOp it.2) else it)
    | none => tasks1
  { w with tasks := tasks2, timerRef := none, abortRef := none }

/-- `scheduleNext(delay, activeSessionId)` (lines 182-185): no-op when
the controller is `IDLE` or the captured token is stale; otherwise arm a
new timer and store its id in `this.timer` (overwriting, not clearing,
any previous id). -/
def scheduleNext (w : World) (delayMs : Nat) (tok : Nat) : World :=
  if w.ctrl.state = .IDLE ∨ tok ≠ w.ctrl.sessionId then w
  else { w with tasks := w.tasks ++ [(w.nextId, .timer tok delayMs)],
                timerRef := some w.nextId,
                nextId := w.nextId + 1 }

/-- `scanLoop(activeSessionId)` (lines 110-128) from entry up to its
suspension at `await executeFetchStrategy`: stale-token and `IDLE`
guards, the `navigator.onLine` connectivity check (offline: ERROR log,
state `FAULT`, retry in 5000 ms), otherwise a fresh `AbortController`
and a dispatched fetch for the current provider (the adapter logs an
INFO line before issuing the request). -/
def scanLoopEnter (w : World) (tok : Nat) (online : Bool) : World × List Emit :=
  if tok ≠ w.ctrl.sessionId then (w, [])
  else if w.ctrl.state = .IDLE then (w, [])
  else if ¬ online then
    let w1 := { w with ctrl := { w.ctrl with state := .FAULT } }
    (scheduleNext w1 5000 tok, [.log .ERROR "Network Link Offline"])
  else
    ({ w with tasks := w.tasks ++ [(w.nextId, .fetchPending tok (currentProvider w.ctrl))],
              abortRef := some w.nextId,
              nextId := w.nextId + 1 },
     [.log .INFO "uplinking..."])

/-- `rotateProvider` (lines 178-180). -/
def rotateProvider (c : Ctrl) : Ctrl :=
  { c with currentProviderIndex := (c.currentProviderIndex + 1) % PROVIDER_ORDER.length }

/-- `scanLoop` after the `await` (lines 131-176), for the settled fetch:
re-check the token; on success reset the failure counter, set state
`SCANNING`, log, dispatch the snapshot, schedule the next poll
(15000 ms if `rangeKm > 300`, else 6000 ms); on `AbortError` do nothing;
on any other error increment the failure counter, log, and either
rotate providers and retry in 1000 ms (threshold reached) or retry the
same provider in 3000 ms. -/
def runContFn (w : World) (tok : Nat) (provider : String) (out : Outcome) :
    World × List Emit :=
  match out with
  | .success n =>
    if tok ≠ w.ctrl.sessionId then (w, [])
    else
      let c1 := { w.ctrl with failures := 0, state := .SCANNING }
      let w1 := { w with ctrl := c1 }
      let okLog : Emit :=
        if 0 < n then .log .SUCCESS "Target Lock"
        else .log .INFO "Scan Complete - Sector Clear"
      let delay : Nat := if (300 : ℚ) < c1.rangeKm then 15000 else 6000
      (scheduleNext w1 delay tok, [okLog, .snapshot n c1.state provider])
  | .aborted =>
    if tok ≠ w.ctrl.sessionId then (w, []) else (w, [])
  | .failure =>
    if tok ≠ w.ctrl.sessionId then (w, [])
    else
      let c1 := { w.ctrl with failures := w.ctrl.failures + 1 }
      if MAX_FAILURES_PER_PROVIDER ≤ c1.failures then
        let c2 := rotateProvider { c1 with failures := 0 }
        (scheduleNext { w with ctrl := c2 } 1000 tok,
         [.log .ERROR "Scan Failed", .log .WARN "Rerouting Data Link"])
      else
        (scheduleNext { w with ctrl := c1 } 3000 tok,
         [.log .ERROR "Scan Failed"])

/-- `start()` (lines 81-87). -/
def startOp (w : World) (online : Bool) : World × List Emit :=
  if w.ctrl.state = .SCANNING then (w, [])
  else
    let w1 := { w with ctrl := { w.ctrl with failures := 0, state := .SCANNING } }
    let r := scanLoopEnter w1 w1.ctrl.sessionId online
    (r.1, .log .INFO "System Start Sequence Initiated" :: r.2)

/-- `stop()` (lines 89-94). -/
def stopOp (w : World) : World × List Emit :=
  if w.ctrl.state = .IDLE then (w, [])
  else (cleanupW { w with ctrl := { w.ctrl with state := .IDLE } },
        [.log .INFO "System Shutdown Sequence"])

/-- The provider-cursor update of `setConfig` (lines 61-62): JavaScript
`indexOf` yields `-1` for an absent element and the code maps a negative
index to `0`; here `findIdx?` yields `none` which is mapped to `0`. -/
def setConfigIndex (provider : String) : Nat :=
  match PROVIDER_ORDER.findIdx? (fun q => q == provider) with
  | some i => i
  | none => 0

/-- `setConfig(provider, lat, lon, rangeKm)` (lines 60-79). -/
def setConfigOp (w : World) (provider : String) (lat lon rangeKm : ℚ)
    (online : Bool) : World × List Emit :=
  let c1 := { w.ctrl with currentProviderIndex := setConfigIndex provider,
                          lat := lat, lon := lon, rangeKm := rangeKm }
  if w.ctrl.lat ≠ lat ∨ w.ctrl.lon ≠ lon ∨ w.ctrl.rangeKm ≠ rangeKm then
    let c2 := { c1 with sessionId := c1.sessionId + 1 }
    let w2 := { w with ctrl := c2 }
    if c2.state = SystemState.SCANNING then
      let r := scanLoopEnter (cleanupW w2) c2.sessionId online
      (r.1, .log .INFO "Configuration Updated" :: r.2)
    else (w2, [.log .INFO "Configuration Updated"])
  else ({ w with ctrl := c1 }, [])

/-- Environment/event-loop events driving the system. -/
inductive Label
  | start (online : Bool)
  | stop
  | setConfig (provider : String) (lat lon rangeKm : ℚ) (online : Bool)
  | settle (id : Nat) (out : Outcome)
  | fireTimer (id : Nat) (online : Bool)
  | runCont (id : Nat)
deriving DecidableEq, Repr

/-- Look up an outstanding operation by id. -/
def findOp (w : World) (id : Nat) : Option PendingOp :=
  (w.tasks.find? (fun it => it.1 = id)).map (·.2)

/-- Remove an outstanding operation by id. -/
def removeOp (w : World) (id : Nat) : World :=
  { w with tasks := w.tasks.filter (fun it => it.1 ≠ id) }

/-- One step of the system: an external API call (`start`, `stop`,
`setConfig`), the network settling an in-flight fetch, a timer firing
(running `scanLoop` under the token the timer captured), or the event
loop running the continuation of a settled fetch. -/
def applyLabel (w : World) (l : Label) : World × List Emit :=
  match l with
  | .start online => startOp w online
  | .stop => stopOp w
  | .setConfig p la lo r online => setConfigOp w p la lo r online
  | .settle id out =>
    ({ w with tasks := w.tasks.map (fun it =>
        if it.1 = id then
          match it.2 with
          | .fetchPending tok p => (it.1, .settled tok p out)
          | op => (it.1, op)
        else it) }, [])
  | .fireTimer id online =>
    match findOp w id with
    | some (.timer tok _) => scanLoopEnter (removeOp w id) tok online
    | _ => (w, [])
  | .runCont id =>
    match findOp w id with
    | some (.settled tok p out) => runContFn (removeOp w id) tok p out
    | _ => (w, [])

/-- The step relation (emissions erased). -/
def Step (w w' : World) : Prop := ∃ l : Label, w' = (applyLabel w l).1

/-- Worlds reachable from the freshly constructed controller. -/
def Reachable (w : World) : Prop := Relation.ReflTransGen Step initWorld w

/-- Run a list of events from a world, discarding emissions. -/
def runLabels (w : World) : List Label → World
  | [] => w
  | l :: ls => runLabels (applyLabel w l).1 ls

/-! ### Response parsing (`executeFetchStrategy`, lines 187-244) -/

/-- A JSON value, as far as the response-handling code inspects it. -/
inductive JValue
  | null
  | bool (b : Bool)
  | num (q : ℚ)
  | str (s : String)
  | arr (xs : List JValue)
  | obj (fields : List (String × JValue))

/-- JavaScript property access `json.name`; `none` models `undefined`
(absent property, or a non-object receiver). -/
def jsField : JValue → String → Option JValue
  | .obj fields, name => (fields.find? (fun f => f.1 == name)).map (·.2)
  | _, _ => none

/-- JavaScript truthiness: arrays and objects are always truthy, numbers
are falsy exactly at 0, strings exactly when empty. -/
def jsTruthy : JValue → Bool
  | .null => false
  | .bool b => b
  | .num q => q != 0
  | .str s => s != ""
  | .arr _ => true
  | .obj _ => true

/-- JavaScript `a || b` for a possibly-undefined `a`. -/
def jsOr (v : Option JValue) (d : JValue) : JValue :=
  match v with
  | some x => if jsTruthy x then x else d
  | none => d

/-- The elements of an array value.  The provider payload lists are
arrays; a non-array truthy value in their place would make the
subsequent `.map` in `processTargets` throw, surfacing as an ordinary
counted failure, and is not modeled further. -/
def asArray : JValue → List JValue
  | .arr xs => xs
  | _ => []

/-- JavaScript index access `s[i]` on an array value. -/
def jsIndex : JValue → Nat → Option JValue
  | .arr xs, i => xs.get? i
  | _, _ => none

/-- The OPENSKY state-vector mapping (lines 229-234): positional fields
of `s` mapped onto the common record shape (0 = hex, 1 = callsign,
6 = lat, 5 = lon, 7 = barometric altitude in meters converted to feet
when truthy, 9 = velocity in m/s converted to knots with falsy values
defaulted to 0, 10 = track).  Absent positions become absent properties;
non-numeric values in the numeric positions (never sent by the provider)
are mapped to 0 here. -/
def openskyMapRow (s : JValue) : JValue :=
  let fieldOpt (name : String) (i : Nat) : List (String × JValue) :=
    match jsIndex s i with
    | some v => [(name, v)]
    | none => []
  let alt : JValue :=
    match jsIndex s 7 with
    | some (.num q) => if q ≠ 0 then .num (q * 3.28084) else .num 0
    | _ => .num 0
  let gs : JValue :=
    match jsIndex s 9 with
    | some (.num q) => .num (q * 1.94384)
    | _ => .num 0
  .obj (fieldOpt "hex" 0 ++ fieldOpt "callsign" 1 ++
        fieldOpt "lat" 6 ++ fieldOpt "lon" 5 ++
        [("alt_baro", alt), ("gs", gs)] ++ fieldOpt "track" 10 ++
        [("t", .str ""), ("r", .str "")])

/-- Ways `executeFetchStrategy` rejects once a response has arrived: a
non-2xx HTTP status (line 218), or a body on which `response.json()`
throws (line 222, modeled as `body = none`). -/
inductive FetchErr
  | httpStatus
  | parseFail
deriving DecidableEq, Repr

/-- The response-handling part of `executeFetchStrategy`
(lines 210-243): non-2xx throws, an unparsable body throws, and
otherwise the provider-specific extraction never throws — for
ADSB_LOL / AIRPLANES_LIVE the `ac` list is defaulted to `[]` when absent
or falsy (`json.ac || []`), for OPENSKY the `states` list is defaulted
to `[]` and mapped positionally. -/
def executeFetchStrategyResult (provider : String) (httpOk : Bool)
    (body : Option JValue) : Except FetchErr (List JValue) :=
  if ¬ httpOk then .error .httpStatus
  else
    match body with
    | none => .error .parseFail
    | some json =>
      if provider = "ADSB_LOL" ∨ provider = "AIRPLANES_LIVE" then
        .ok (asArray (jsOr (jsField json "ac") (.arr [])))
      else if provider = "OPENSKY" then
        .ok ((asArray (jsOr (jsField json "states") (.arr []))).map openskyMapRow)
      else .ok []

/-! ### Normalizer (`processTargets`, lines 246-292) -/

/-- `Number(v)` for the values the normalizer reads: `none` models NaN.
`undefined`, arrays, objects and non-empty strings are mapped to NaN
(the providers send plain numbers in the numeric fields, never numeric
strings), `null`, `false` and the empty string cast to 0, `true` to
1. -/
def jsNumber : Option JValue → Option ℚ
  | none => none
  | some .null => some 0
  | some (.bool b) => some (if b then 1 else 0)
  | some (.num q) => some q
  | some (.str s) => if s = "" then some 0 else none
  | some (.arr _) => none
  | some (.obj _) => none

/-- `String(item.t || fallback)` for the string field the normalizer
reads (provider payloads carry strings there). -/
def jsStrOr (v : Option JValue) (d : String) : String :=
  match v with
  | some (.str s) => if s = "" then d else s
  | _ => d

/-- The radar-cross-section rule table (lines 264-269): first matching
uppercased type-code prefix wins, default 5. -/
def rcsOf (t : String) : ℚ :=
  if t.startsWith "B7" ∨ t.startsWith "A3" then 50
  else if t.startsWith "C1" ∨ t.startsWith "P2" then 2
  else if t.startsWith "F" ∨ t.startsWith "M" then 10
  else 5

/-- The numeric/kinematic fields of a normalized `RadarTarget`; the
string identity fields (`id`, `callsign`, `registration`,
`classification`) and the timestamps play no role in any verified
property and are not modeled. -/
structure TargetNum where
  x : ℝ
  y : ℝ
  vx : ℝ
  vy : ℝ
  altitude : ℝ
  rcs : ℚ
  geoLat : ℚ
  geoLon : ℚ
  geoTrack : ℚ

/-- One element of the `rawData.map` body of `processTargets`
(lines 249-290), evaluated at the current controller origin
`(ctrlLat, ctrlLon)`: records with NaN latitude/longitude are discarded;
positions are projected onto the local Cartesian plane
(`y = Δlat × 110574`, `x = Δlon × 111320 × cos(originLat·π/180)`),
ground speed (knots) is converted to m/s and decomposed along the
heading, and altitude is converted feet → meters. -/
noncomputable def processTarget (ctrlLat ctrlLon : ℚ) (item : JValue) :
    Option TargetNum :=
  match jsNumber (jsField item "lat"), jsNumber (jsField item "lon") with
  | some lat, some lon =>
    let latDiff : ℝ := (lat : ℝ) - (ctrlLat : ℝ)
    let lngDiff : ℝ := (lon : ℝ) - (ctrlLon : ℝ)
    let y : ℝ := latDiff * 110574
    let x : ℝ := lngDiff * (111320 * Real.cos ((ctrlLat : ℝ) * Real.pi / 180))
    let speedKnots : ℚ := (jsNumber (jsField item "gs")).getD 0
    let speedMs : ℝ := (speedKnots : ℝ) * 0.514444
    let track : ℚ := (jsNumber (jsField item "track")).getD 0
    let headingRad : ℝ := (track : ℝ) * Real.pi / 180
    let typeStr : String := (jsStrOr (jsField item "t") "").toUpper
    some { x := x, y := y,
           vx := speedMs * Real.sin headingRad,
           vy := speedMs * Real.cos headingRad,
           altitude := (((jsNumber (jsField item "alt_baro")).getD 0 : ℚ) : ℝ) * 0.3048,
           rcs := rcsOf typeStr,
           geoLat := lat, geoLon := lon, geoTrack := track }
  | _, _ => none

/-- `processTargets` itself: map and drop the discarded records. -/
noncomputable def processTargets (ctrlLat ctrlLon : ℚ) (rawData : List JValue) :
    List TargetNum :=
  (rawData.map (processTarget ctrlLat ctrlLon)).filterMap id

/-- The spec's worked example record: lat 51.01, lon 0.02, altitude
35000 ft, ground speed 450 kn, heading 90°. -/
def c8Item : JValue :=
  .obj [("hex", .str "abc123"), ("lat", .num 51.01), ("lon", .num 0.02),
        ("alt_baro", .num 35000), ("gs", .num 450), ("track", .num 90)]

/-- The normalized target of the worked example (origin (51, 0)). -/
noncomputable def c8Target : TargetNum :=
  (processTarget 51 0 c8Item).getD
    { x := 0, y := 0, vx := 0, vy := 0, altitude := 0, rcs := 0,
      geoLat := 0, geoLon := 0, geoTrack := 0 }

/-- Concrete world for the C1 witness: current token `1`, one settled
fetch captured under the older token `0`. -/
def c1World : World :=
  { ctrl := { initCtrl with sessionId := 1 },
    tasks := [(0, .settled 0 "ADSB_LOL" (.success 2))],
    nextId := 1, timerRef := none, abortRef := none }

/-- Event sequence duplicating the scheduling loop, compatible with
JavaScript run-to-completion scheduling (each label is a whole task;
no user call is interleaved between a fetch settling and its
continuation running): `start()` while the network is unreachable puts
the controller in `FAULT` with a 5000 ms retry timer armed; a second
`start()` is not a no-op in `FAULT` and begins a new loop iteration
without clearing that timer. -/
def c2Labels : List Label := [.start false, .start true]

/-- The world after the events of `c2Labels`: a pending retry timer and
an in-flight fetch are outstanding simultaneously, both under the
current session token. -/
def c2World : World := runLabels initWorld c2Labels

/-! ### Helper lemmas about the individual operations -/

theorem scheduleNext_ctrl (w : World) (d tok : Nat) :
    (scheduleNext w d tok).ctrl = w.ctrl := by
  unfold scheduleNext; split <;> rfl

theorem cleanupW_ctrl (w : World) : (cleanupW w).ctrl = w.ctrl := rfl

theorem removeOp_ctrl (w : World) (id : Nat) : (removeOp w id).ctrl = w.ctrl := rfl

theorem scanLoopEnter_ctrl (w : World) (tok : Nat) (onl : Bool) :
    (scanLoopEnter w tok onl).1.ctrl = w.ctrl ∨
    (scanLoopEnter w tok onl).1.ctrl = { w.ctrl with state := .FAULT } := by
  unfold scanLoopEnter
  split
  · exact Or.inl rfl
  split
  · exact Or.inl rfl
  split
  · exact Or.inr (scheduleNext_ctrl _ _ _)
  · exact Or.inl rfl

theorem runContFn_ctrl (w : World) (tok : Nat) (p : String) (out : Outcome) :
    (runContFn w tok p out).1.ctrl = w.ctrl ∨
    (runContFn w tok p out).1.ctrl = { w.ctrl with failures := 0, state := .SCANNING } ∨
    (runContFn w tok p out).1.ctrl = { w.ctrl with failures := w.ctrl.failures + 1 } ∨
    (runContFn w tok p out).1.ctrl =
      { w.ctrl with failures := 0,
                    currentProviderIndex := (w.ctrl.currentProviderIndex + 1) % 3 } := by
  unfold runContFn
  match out with
  | .success n =>
    dsimp only
    split
    · exact Or.inl rfl
    · exact Or.inr (Or.inl (scheduleNext_ctrl _ _ _))
  | .aborted =>
    dsimp only; split
    · exact Or.inl rfl
    · exact Or.inl rfl
  | .failure =>
    dsimp only
    split
    · exact Or.inl rfl
    split
    · refine Or.inr (Or.inr (Or.inr ?_))
      rw [scheduleNext_ctrl]
      rfl
    · exact Or.inr (Or.inr (Or.inl (scheduleNext_ctrl _ _ _)))

theorem startOp_ctrl (w : World) (onl : Bool) :
    (startOp w onl).1.ctrl = w.ctrl ∨
    (startOp w onl).1.ctrl = { w.ctrl with failures := 0, state := .SCANNING } ∨
    (startOp w onl).1.ctrl = { w.ctrl with failures := 0, state := .FAULT } := by
  unfold startOp
  split
  · exact Or.inl rfl
  · rcases scanLoopEnter_ctrl
      { w with ctrl := { w.ctrl with failures := 0, state := .SCANNING } }
      w.ctrl.sessionId onl with h | h
    · exact Or.inr (Or.inl h)
    · exact Or.inr (Or.inr h)

theorem stopOp_ctrl (w : World) :
    (stopOp w).1.ctrl = w.ctrl ∨
    (stopOp w).1.ctrl = { w.ctrl with state := .IDLE } := by
  unfold stopOp
  split
  · exact Or.inl rfl
  · exact Or.inr (cleanupW_ctrl _)

/-- The provider index computed by `setConfig` is a valid index of the
three-element provider sequence. -/
theorem setConfigIndex_lt_three (p : String) : setConfigIndex p < 3 := by
  unfold setConfigIndex
  rcases h : PROVIDER_ORDER.findIdx? (fun q => q == p) with _ | i
  · exact Nat.zero_lt_succ 2
  · have hlt := (List.findIdx?_eq_some_iff_findIdx_eq.mp h).1
    simpa [PROVIDER_ORDER] using hlt

theorem setConfigOp_ctrl (w : World) (p : String) (la lo r : ℚ) (onl : Bool) :
    (setConfigOp w p la lo r onl).1.ctrl =
       { w.ctrl with currentProviderIndex := setConfigIndex p,
                     lat := la, lon := lo, rangeKm := r } ∨
    (setConfigOp w p la lo r onl).1.ctrl =
       { w.ctrl with currentProviderIndex := setConfigIndex p,
                     lat := la, lon := lo, rangeKm := r,
                     sessionId := w.ctrl.sessionId + 1 } ∨
    (setConfigOp w p la lo r onl).1.ctrl =
       { w.ctrl with currentProviderIndex := setConfigIndex p,
                     lat := la, lon := lo, rangeKm := r,
                     sessionId := w.ctrl.sessionId + 1, state := .FAULT } := by
  unfold setConfigOp
  dsimp only
  split
  · split
    · rcases scanLoopEnter_ctrl (cleanupW _) (w.ctrl.sessionId + 1) onl with h | h
      · rw [h, cleanupW_ctrl]
        exact Or.inr (Or.inl rfl)
      · rw [h, cleanupW_ctrl]
        exact Or.inr (Or.inr rfl)
    · exact Or.inr (Or.inl rfl)
  · exact Or.inl rfl

theorem settle_ctrl (w : World) (id : Nat) (out : Outcome) :
    (applyLabel w (.settle id out)).1.ctrl = w.ctrl := rfl

theorem fireTimer_ctrl (w : World) (id : Nat) (onl : Bool) :
    (applyLabel w (.fireTimer id onl)).1.ctrl = w.ctrl ∨
    (applyLabel w (.fireTimer id onl)).1.ctrl = { w.ctrl with state := .FAULT } := by
  rcases hf : findOp w id with _ | op
  · simp only [applyLabel, hf]
    exact Or.inl trivial
  · match op with
    | .timer tok d =>
      simp only [applyLabel, hf]
      have h := scanLoopEnter_ctrl (removeOp w id) tok onl
      rw [removeOp_ctrl] at h
      exact h
    | .fetchPending _ _ =>
      simp only [applyLabel, hf]
      exact Or.inl trivial
    | .settled _ _ _ =>
      simp only [applyLabel, hf]
      exact Or.inl trivial

theorem runCont_ctrl (w : World) (id : Nat) :
    (applyLabel w (.runCont id)).1.ctrl = w.ctrl ∨
    (applyLabel w (.runCont id)).1.ctrl = { w.ctrl with failures := 0, state := .SCANNING } ∨
    (applyLabel w (.runCont id)).1.ctrl = { w.ctrl with failures := w.ctrl.failures + 1 } ∨
    (applyLabel w (.runCont id)).1.ctrl =
      { w.ctrl with failures := 0,
                    currentProviderIndex := (w.ctrl.currentProviderIndex + 1) % 3 } := by
  rcases hf : findOp w id with _ | op
  · simp only [applyLabel, hf]
    exact Or.inl trivial
  · match op with
    | .timer _ _ =>
      simp only [applyLabel, hf]
      exact Or.inl trivial
    | .fetchPending _ _ =>
      simp only [applyLabel, hf]
      exact Or.inl trivial
    | .settled tok p out =>
      simp only [applyLabel, hf]
      have h := runContFn_ctrl (removeOp w id) tok p out
      rw [removeOp_ctrl] at h
      exact h

/-- Along every step, the session token never decreases. -/
theorem applyLabel_sessionId_mono (w : World) (l : Label) :
    w.ctrl.sessionId ≤ ((applyLabel w l).1).ctrl.sessionId := by
  match l with
  | .start onl =>
    rcases startOp_ctrl w onl with h | h | h <;>
      simp only [applyLabel, h] <;> exact Nat.le_refl _
  | .stop =>
    rcases stopOp_ctrl w with h | h <;>
      simp only [applyLabel, h] <;> exact Nat.le_refl _
  | .setConfig p la lo r onl =>
    rcases setConfigOp_ctrl w p la lo r onl with h | h | h <;>
      simp only [applyLabel, h] <;> omega
  | .settle id out =>
    rw [settle_ctrl]
  | .fireTimer id onl =>
    rcases fireTimer_ctrl w id onl with h | h <;> rw [h]
  | .runCont id =>
    rcases runCont_ctrl w id with h | h | h | h <;> rw [h]

/-- The continuation of a settled fetch whose captured token is stale
returns immediately: same world, no emissions. -/
theorem runContFn_stale (w : World) (tok : Nat) (p : String) (out : Outcome)
    (h : tok ≠ w.ctrl.sessionId) : runContFn w tok p out = (w, []) := by
  cases out <;> simp [runContFn, h]

/-! ### Claim theorems -/

/-- C1: A fetch completion whose captured session token no longer equals
the Controller's current token is silently discarded by `scanLoop`:
running its continuation only removes the completed operation from the
event loop and produces no snapshot dispatch, no log event and no
rescheduled timer; moreover the session token never decreases along any
step, so the token of a superseded configuration can never become
current again and such a result is never delivered to the snapshot
sink. -/
theorem stale_completion_never_delivered (w : World) (id tok : Nat) (p : String)
    (out : Outcome)
    (hfind : findOp w id = some (.settled tok p out))
    (hstale : tok ≠ w.ctrl.sessionId) :
    applyLabel w (.runCont id) = (removeOp w id, []) ∧
    ∀ l : Label, w.ctrl.sessionId ≤ ((applyLabel w l).1).ctrl.sessionId := by
  constructor
  · simp only [applyLabel, hfind]
    exact runContFn_stale (removeOp w id) tok p out hstale
  · exact applyLabel_sessionId_mono w

theorem stale_completion_never_delivered_witness :
    applyLabel c1World (.runCont 0) = (removeOp c1World 0, []) :=
  (stale_completion_never_delivered c1World 0 0 "ADSB_LOL" (.success 2)
    (by decide) (by decide)).1

/-- C5: When the coarse network-reachability check reports unreachable,
`scanLoop` logs an ERROR, sets state `FAULT`, schedules a retry after
exactly 5000 ms under the same token, and returns without dispatching a
fetch; the provider cursor and the failure counter (whatever its value)
are untouched. -/
theorem offline_faults_and_backs_off (w : World) (tok : Nat)
    (htok : tok = w.ctrl.sessionId) (hstate : w.ctrl.state ≠ .IDLE) :
    scanLoopEnter w tok false =
      ({ w with ctrl := { w.ctrl with state := .FAULT },
                tasks := w.tasks ++ [(w.nextId, .timer tok 5000)],
                timerRef := some w.nextId,
                nextId := w.nextId + 1 },
       [.log .ERROR "Network Link Offline"]) := by
  subst htok
  simp [scanLoopEnter, scheduleNext, hstate]

theorem offline_faults_and_backs_off_witness :
    scanLoopEnter { initWorld with ctrl := { initCtrl with state := .SCANNING, failures := 1 } }
        0 false =
      ({ initWorld with
           ctrl := { initCtrl with state := .FAULT, failures := 1 },
           tasks := [(0, .timer 0 5000)],
           timerRef := some 0, nextId := 1 },
       [.log .ERROR "Network Link Offline"]) := by
  have h := offline_faults_and_backs_off
    { initWorld with ctrl := { initCtrl with state := .SCANNING, failures := 1 } }
    0 (by decide) (by decide)
  exact h

/-- C7: On a successful fetch cycle (valid token) the failure counter is
reset, the state is set to `SCANNING` before the snapshot is dispatched
(the emitted snapshot carries state `SCANNING`), and the next iteration
is scheduled after 15000 ms when `rangeKm > 300` and 6000 ms otherwise;
in particular `rangeKm = 400` gives 15000 ms and `rangeKm = 50` gives
6000 ms. -/
theorem success_resets_and_reschedules (w : World) (tok : Nat) (p : String) (n : Nat)
    (htok : tok = w.ctrl.sessionId) :
    runContFn w tok p (.success n) =
      ({ w with ctrl := { w.ctrl with failures := 0, state := .SCANNING },
                tasks := w.tasks ++
                  [(w.nextId, .timer tok (if (300 : ℚ) < w.ctrl.rangeKm then 15000 else 6000))],
                timerRef := some w.nextId,
                nextId := w.nextId + 1 },
       [(if 0 < n then .log .SUCCESS "Target Lock"
         else .log .INFO "Scan Complete - Sector Clear"),
        .snapshot n .SCANNING p]) ∧
    (w.ctrl.rangeKm = 400 →
       (runContFn w tok p (.success n)).1.tasks =
         w.tasks ++ [(w.nextId, .timer tok 15000)]) ∧
    (w.ctrl.rangeKm = 50 →
       (runContFn w tok p (.success n)).1.tasks =
         w.tasks ++ [(w.nextId, .timer tok 6000)]) := by
  subst htok
  have hmain : runContFn w w.ctrl.sessionId p (.success n) =
      ({ w with ctrl := { w.ctrl with failures := 0, state := .SCANNING },
                tasks := w.tasks ++
                  [(w.nextId, .timer w.ctrl.sessionId
                      (if (300 : ℚ) < w.ctrl.rangeKm then 15000 else 6000))],
                timerRef := some w.nextId,
                nextId := w.nextId + 1 },
       [(if 0 < n then .log .SUCCESS "Target Lock"
         else .log .INFO "Scan Complete - Sector Clear"),
        .snapshot n .SCANNING p]) := by
    simp [runContFn, scheduleNext]
  refine ⟨hmain, fun hr => ?_, fun hr => ?_⟩
  · rw [hmain]
    simp [hr]
    norm_num
  · rw [hmain]
    simp [hr]
    norm_num

theorem success_resets_and_reschedules_witness :
    runContFn { initWorld with ctrl := { initCtrl with rangeKm := 400, failures := 1 } }
        0 "OPENSKY" (.success 7) =
      ({ initWorld with
           ctrl := { initCtrl with rangeKm := 400, failures := 0, state := .SCANNING },
           tasks := [(0, .timer 0 15000)],
           timerRef := some 0, nextId := 1 },
       [.log .SUCCESS "Target Lock", .snapshot 7 .SCANNING "OPENSKY"]) := by
  rw [(success_resets_and_reschedules
    { initWorld with ctrl := { initCtrl with rangeKm := 400, failures := 1 } }
    0 "OPENSKY" 7 (by decide)).1]
  decide

/-- A first non-cancelled failure from a counter at 0: counter becomes 1,
provider unchanged, retry timer armed after 3000 ms. -/
theorem runContFn_failure_first (w : World) (tok : Nat) (p : String)
    (htok : tok = w.ctrl.sessionId) (hstate : w.ctrl.state ≠ .IDLE)
    (hfail : w.ctrl.failures = 0) :
    runContFn w tok p .failure =
      ({ w with ctrl := { w.ctrl with failures := 1 },
                tasks := w.tasks ++ [(w.nextId, .timer tok 3000)],
                timerRef := some w.nextId, nextId := w.nextId + 1 },
       [.log .ERROR "Scan Failed"]) := by
  subst htok
  simp [runContFn, scheduleNext, hfail, hstate, MAX_FAILURES_PER_PROVIDER]

/-- A second consecutive non-cancelled failure (counter at 1): threshold
2 reached, counter reset to 0, provider cursor advanced by one position
modulo 3, retry timer armed after 1000 ms. -/
theorem runContFn_failure_second (w : World) (tok : Nat) (p : String)
    (htok : tok = w.ctrl.sessionId) (hstate : w.ctrl.state ≠ .IDLE)
    (hfail : w.ctrl.failures = 1) :
    runContFn w tok p .failure =
      ({ w with ctrl := { w.ctrl with
                            failures := 0,
                            currentProviderIndex := (w.ctrl.currentProviderIndex + 1) % 3 },
                tasks := w.tasks ++ [(w.nextId, .timer tok 1000)],
                timerRef := some w.nextId, nextId := w.nextId + 1 },
       [.log .ERROR "Scan Failed", .log .WARN "Rerouting Data Link"]) := by
  subst htok
  simp [runContFn, scheduleNext, rotateProvider, PROVIDER_ORDER, hfail, hstate,
        MAX_FAILURES_PER_PROVIDER]

/-- C3: Starting from a failure counter of 0 with a valid token and an
active (non-IDLE) controller, one non-cancelled failure leaves the
provider unchanged, sets the counter to 1 and schedules the retry after
3000 ms; the second consecutive non-cancelled failure resets the counter
to 0, advances the provider cursor by exactly one position modulo the
three-provider sequence, and schedules the retry after 1000 ms. -/
theorem two_consecutive_failures_rotate (w : World) (tok : Nat) (p q : String)
    (htok : tok = w.ctrl.sessionId) (hstate : w.ctrl.state ≠ .IDLE)
    (hfail : w.ctrl.failures = 0) :
    (runContFn w tok p .failure).1.ctrl.failures = 1 ∧
    (runContFn w tok p .failure).1.ctrl.currentProviderIndex
      = w.ctrl.currentProviderIndex ∧
    (runContFn w tok p .failure).1.tasks
      = w.tasks ++ [(w.nextId, .timer tok 3000)] ∧
    (runContFn (runContFn w tok p .failure).1 tok q .failure).1.ctrl.failures = 0 ∧
    (runContFn (runContFn w tok p .failure).1 tok q .failure).1.ctrl.currentProviderIndex
      = (w.ctrl.currentProviderIndex + 1) % 3 ∧
    (runContFn (runContFn w tok p .failure).1 tok q .failure).1.tasks
      = w.tasks ++ [(w.nextId, .timer tok 3000), (w.nextId + 1, .timer tok 1000)] := by
  have h1 := runContFn_failure_first w tok p htok hstate hfail
  have h2 := runContFn_failure_second (runContFn w tok p .failure).1 tok q
    (by rw [h1]; exact htok) (by rw [h1]; exact hstate) (by rw [h1])
  rw [h1] at h2 ⊢
  rw [h2]
  simp

theorem two_consecutive_failures_rotate_witness :
    (runContFn (runContFn
        { initWorld with ctrl := { initCtrl with state := .SCANNING } }
        0 "ADSB_LOL" .failure).1 0 "ADSB_LOL" .failure).1.ctrl.currentProviderIndex = 1 ∧
    (runContFn (runContFn
        { initWorld with ctrl := { initCtrl with state := .SCANNING } }
        0 "ADSB_LOL" .failure).1 0 "ADSB_LOL" .failure).1.ctrl.failures = 0 := by
  have h := two_consecutive_failures_rotate
    { initWorld with ctrl := { initCtrl with state := .SCANNING } }
    0 "ADSB_LOL" "ADSB_LOL" (by decide) (by decide) (by decide)
  exact ⟨h.2.2.2.2.1.trans (by decide), h.2.2.2.1⟩

/-- When position or range actually changed, `setConfig` increments the
session token by exactly one. -/
theorem setConfigOp_sessionId_changed (w : World) (p : String) (la lo r : ℚ)
    (onl : Bool)
    (hch : w.ctrl.lat ≠ la ∨ w.ctrl.lon ≠ lo ∨ w.ctrl.rangeKm ≠ r) :
    (setConfigOp w p la lo r onl).1.ctrl.sessionId = w.ctrl.sessionId + 1 := by
  unfold setConfigOp
  dsimp only
  rw [if_pos hch]
  split
  · rcases scanLoopEnter_ctrl (cleanupW { w with ctrl := { w.ctrl with
        currentProviderIndex := setConfigIndex p,
        lat := la, lon := lo, rangeKm := r,
        sessionId := w.ctrl.sessionId + 1 } }) (w.ctrl.sessionId + 1) onl with hh | hh <;>
      simp [hh, cleanupW_ctrl]
  · rfl

/-- C4: `setConfig` is asymmetric.  When latitude, longitude and range
all equal the current configuration, the session token is untouched, no
log or restart occurs, and the whole effect is the provider-cursor
update.  When any of the three differs, the session token is incremented
by exactly one and, if the controller is `SCANNING`, the effect is
`cleanup` (cancelling the referenced timer and aborting the referenced
in-flight fetch) followed by re-entering the scan loop under the new
token. -/
theorem setConfig_asymmetry (w : World) (p : String) (la lo r : ℚ) (onl : Bool) :
    ((w.ctrl.lat = la ∧ w.ctrl.lon = lo ∧ w.ctrl.rangeKm = r) →
       setConfigOp w p la lo r onl =
         ({ w with ctrl := { w.ctrl with
              currentProviderIndex := setConfigIndex p,
              lat := la, lon := lo, rangeKm := r } }, [])) ∧
    ((¬ (w.ctrl.lat = la ∧ w.ctrl.lon = lo ∧ w.ctrl.rangeKm = r)) →
       (setConfigOp w p la lo r onl).1.ctrl.sessionId = w.ctrl.sessionId + 1 ∧
       (w.ctrl.state = .SCANNING →
          setConfigOp w p la lo r onl =
            ((scanLoopEnter (cleanupW { w with ctrl := { w.ctrl with
                 currentProviderIndex := setConfigIndex p,
                 lat := la, lon := lo, rangeKm := r,
                 sessionId := w.ctrl.sessionId + 1 } })
               (w.ctrl.sessionId + 1) onl).1,
             .log .INFO "Configuration Updated" ::
               (scanLoopEnter (cleanupW { w with ctrl := { w.ctrl with
                    currentProviderIndex := setConfigIndex p,
                    lat := la, lon := lo, rangeKm := r,
                    sessionId := w.ctrl.sessionId + 1 } })
                  (w.ctrl.sessionId + 1) onl).2))) := by
  constructor
  · rintro ⟨h1, h2, h3⟩
    have hnc : ¬ (w.ctrl.lat ≠ la ∨ w.ctrl.lon ≠ lo ∨ w.ctrl.rangeKm ≠ r) := by
      push_neg
      exact ⟨h1, h2, h3⟩
    unfold setConfigOp
    dsimp only
    rw [if_neg hnc]
  · intro hch
    have hch' : w.ctrl.lat ≠ la ∨ w.ctrl.lon ≠ lo ∨ w.ctrl.rangeKm ≠ r := by
      by_contra hc
      push_neg at hc
      exact hch ⟨hc.1, hc.2.1, hc.2.2⟩
    refine ⟨setConfigOp_sessionId_changed w p la lo r onl hch', fun hscan => ?_⟩
    unfold setConfigOp
    dsimp only
    rw [if_pos hch']
    split
    · rfl
    · next hns => exact absurd hscan hns

theorem setConfig_asymmetry_witness :
    (setConfigOp initWorld "OPENSKY" 0 0 50 true =
       ({ initWorld with ctrl := { initCtrl with currentProviderIndex := 2 } }, [])) ∧
    (setConfigOp initWorld "OPENSKY" 51 0 100 true).1.ctrl.sessionId = 1 := by
  have h := setConfig_asymmetry initWorld "OPENSKY" 0 0 50 true
  have h' := setConfig_asymmetry initWorld "OPENSKY" 51 0 100 true
  refine ⟨?_, ?_⟩
  · rw [h.1 ⟨by decide, by decide, by decide⟩]
    decide
  · rw [(h'.2 (by decide)).1]
    rfl

/-- C2: REFUTED by the code.  The claimed invariant — at most one
scheduled operation (pending timer or in-flight iteration that will
reschedule) outstanding at every reachable state — fails on a schedule
that respects run-to-completion semantics: `start()` while unreachable
leaves a 5000 ms retry timer armed in state `FAULT`; a second `start()`
(not a no-op in `FAULT`, and it performs no cleanup) dispatches a new
fetch while that timer is still pending, so two scheduled operations are
outstanding under the same valid token; when the timer fires there are
two in-flight iterations, and after both complete two pending timers —
two concurrent polling loops.  `stop()` then cancels only the operations
referenced by `this.timer`/`this.abortController`: the older in-flight
fetch survives un-aborted, and when it completes successfully after
`stop()` (the token was never incremented) its continuation sets the
state back to `SCANNING`, dispatches a snapshot and reschedules — the
loop outlives `stop()`. -/
theorem fault_start_overlapping_iterations :
    c2World.ctrl.state = .SCANNING ∧
    c2World.ctrl.sessionId = 0 ∧
    c2World.tasks.map Prod.snd = [.timer 0 5000, .fetchPending 0 "ADSB_LOL"] ∧
    (runLabels c2World [.fireTimer 0 true]).tasks.map Prod.snd
      = [.fetchPending 0 "ADSB_LOL", .fetchPending 0 "ADSB_LOL"] ∧
    (runLabels c2World [.fireTimer 0 true, .settle 1 (.success 2), .runCont 1,
        .settle 2 (.success 4), .runCont 2]).tasks.map Prod.snd
      = [.timer 0 6000, .timer 0 6000] ∧
    (runLabels c2World [.fireTimer 0 true, .stop,
        .settle 1 (.success 2), .runCont 1]).ctrl.state = .SCANNING ∧
    (runLabels c2World [.fireTimer 0 true, .stop,
        .settle 1 (.success 2), .runCont 1]).tasks.map Prod.snd
      = [.settled 0 "ADSB_LOL" .aborted, .timer 0 6000] := by decide

/-- Every step preserves "the machine state is not `RECOVERY`". -/
theorem step_keeps_not_recovery (w w' : World) (h : Step w w')
    (hw : w.ctrl.state ≠ SystemState.RECOVERY) :
    w'.ctrl.state ≠ SystemState.RECOVERY := by
  obtain ⟨l, rfl⟩ := h
  match l with
  | .start onl =>
    rcases startOp_ctrl w onl with hh | hh | hh <;>
      simp only [applyLabel] <;> rw [hh] <;> simp_all
  | .stop =>
    rcases stopOp_ctrl w with hh | hh <;>
      simp only [applyLabel] <;> rw [hh] <;> simp_all
  | .setConfig p la lo r onl =>
    rcases setConfigOp_ctrl w p la lo r onl with hh | hh | hh <;>
      simp only [applyLabel] <;> rw [hh] <;> simp_all
  | .settle id out =>
    rw [settle_ctrl]
    exact hw
  | .fireTimer id onl =>
    rcases fireTimer_ctrl w id onl with hh | hh <;> rw [hh] <;> simp_all
  | .runCont id =>
    rcases runCont_ctrl w id with hh | hh | hh | hh <;> rw [hh] <;> simp_all

/-- C9: In every reachable world the machine state is one of `IDLE`,
`SCANNING`, `FAULT`: the declared `RECOVERY` state is never assigned by
any transition of the Controller. -/
theorem recovery_never_assigned (w : World) (hw : Reachable w) :
    w.ctrl.state ≠ SystemState.RECOVERY := by
  have hw' : Relation.ReflTransGen Step initWorld w := hw
  clear hw
  induction hw' with
  | refl => decide
  | tail _ hstep ih => exact step_keeps_not_recovery _ _ hstep ih

theorem recovery_never_assigned_witness :
    initWorld.ctrl.state ≠ SystemState.RECOVERY :=
  recovery_never_assigned initWorld Relation.ReflTransGen.refl

/-- Every step keeps the provider cursor inside the three-element
provider sequence. -/
theorem step_keeps_idx_lt (w w' : World) (h : Step w w')
    (hw : w.ctrl.currentProviderIndex < 3) :
    w'.ctrl.currentProviderIndex < 3 := by
  obtain ⟨l, rfl⟩ := h
  match l with
  | .start onl =>
    rcases startOp_ctrl w onl with hh | hh | hh <;>
      simp only [applyLabel] <;> rw [hh] <;> simpa using hw
  | .stop =>
    rcases stopOp_ctrl w with hh | hh <;>
      simp only [applyLabel] <;> rw [hh] <;> simpa using hw
  | .setConfig p la lo r onl =>
    rcases setConfigOp_ctrl w p la lo r onl with hh | hh | hh <;>
      simp only [applyLabel] <;> rw [hh] <;> simpa using setConfigIndex_lt_three p
  | .settle id out =>
    rw [settle_ctrl]
    exact hw
  | .fireTimer id onl =>
    rcases fireTimer_ctrl w id onl with hh | hh <;> rw [hh] <;> simpa using hw
  | .runCont id =>
    rcases runCont_ctrl w id with hh | hh | hh | hh <;> rw [hh] <;>
      first
        | simpa using hw
        | (simp
           omega)

/-- C10: `setConfig` with a provider string outside the fixed provider
order sets the provider cursor to index 0 (the first provider), and in
every reachable world the cursor is a valid index of the three-element
provider sequence. -/
theorem invalid_provider_resets_cursor (w : World) (p : String) (la lo r : ℚ)
    (onl : Bool) (hp : p ∉ PROVIDER_ORDER) (hw : Reachable w) :
    (setConfigOp w p la lo r onl).1.ctrl.currentProviderIndex = 0 ∧
    w.ctrl.currentProviderIndex < 3 := by
  constructor
  · have hidx : setConfigIndex p = 0 := by
      unfold setConfigIndex
      have hnone : PROVIDER_ORDER.findIdx? (fun q => q == p) = none := by
        rw [List.findIdx?_eq_none_iff]
        intro x hx
        rw [beq_eq_false_iff_ne]
        intro hxp
        exact hp (hxp ▸ hx)
      rw [hnone]
    rcases setConfigOp_ctrl w p la lo r onl with hh | hh | hh <;> rw [hh] <;>
      simpa using hidx
  · have hw' : Relation.ReflTransGen Step initWorld w := hw
    clear hw
    induction hw' with
    | refl => decide
    | tail _ hstep ih => exact step_keeps_idx_lt _ _ hstep ih

theorem invalid_provider_resets_cursor_witness :
    (setConfigOp initWorld "BOGUS" 0 0 50 true).1.ctrl.currentProviderIndex = 0 ∧
    initWorld.ctrl.currentProviderIndex < 3 :=
  invalid_provider_resets_cursor initWorld "BOGUS" 0 0 50 true (by decide)
    Relation.ReflTransGen.refl

/-- C6 counterexample: for ADSB_LOL an HTTP-200 response whose JSON body
merely lacks the `ac` field (and for OPENSKY the `states` field) is not
an error at all — extraction yields a successful empty list — and
feeding the resulting empty success into the `scanLoop` continuation
leaves the failure counter at 0 and dispatches an (empty) snapshot,
contrary to the claim that a missing expected field is counted like a
`TransportError` and never treated as a successful empty snapshot. -/
theorem missing_field_not_counted :
    executeFetchStrategyResult "ADSB_LOL" true
        (some (.obj [("flights", .arr [])])) = .ok [] ∧
    executeFetchStrategyResult "OPENSKY" true
        (some (.obj [("time", .num 5)])) = .ok [] ∧
    (runContFn { initWorld with ctrl := { initCtrl with state := .SCANNING } }
        0 "ADSB_LOL" (.success 0)).1.ctrl.failures = 0 ∧
    (runContFn { initWorld with ctrl := { initCtrl with state := .SCANNING } }
        0 "ADSB_LOL" (.success 0)).2
      = [.log .INFO "Scan Complete - Sector Clear",
         .snapshot 0 .SCANNING "ADSB_LOL"] := by
  refine ⟨rfl, rfl, ?_, ?_⟩ <;> decide

/-- C6 (amended): HTTP error statuses and JSON parse failures are
treated as fetch errors and counted toward the provider-failover
threshold exactly like transport errors — the continuation increments
the failure counter and logs an ERROR — but a well-formed body missing
the expected list field (`ac` / `states`) is not an error: extraction
defaults it to the empty list and the cycle proceeds as a successful
empty snapshot with the counter reset. -/
theorem malformed_response_handling (w : World) (tok : Nat) (p : String)
    (body : JValue)
    (htok : tok = w.ctrl.sessionId) (hstate : w.ctrl.state ≠ .IDLE)
    (hfail : w.ctrl.failures = 0)
    (hac : jsField body "ac" = none) (hstates : jsField body "states" = none) :
    executeFetchStrategyResult "ADSB_LOL" true none = .error .parseFail ∧
    executeFetchStrategyResult "ADSB_LOL" false (some body) = .error .httpStatus ∧
    (runContFn w tok p .failure).1.ctrl.failures = w.ctrl.failures + 1 ∧
    (runContFn w tok p .failure).2 = [.log .ERROR "Scan Failed"] ∧
    executeFetchStrategyResult "ADSB_LOL" true (some body) = .ok [] ∧
    executeFetchStrategyResult "OPENSKY" true (some body) = .ok [] ∧
    (runContFn w tok p (.success 0)).1.ctrl.failures = 0 ∧
    (runContFn w tok p (.success 0)).1.ctrl.state = .SCANNING ∧
    (runContFn w tok p (.success 0)).2
      = [.log .INFO "Scan Complete - Sector Clear", .snapshot 0 .SCANNING p] := by
  have hfirst := runContFn_failure_first w tok p htok hstate hfail
  have hs : runContFn w tok p (.success 0) =
      ({ w with ctrl := { w.ctrl with failures := 0, state := .SCANNING },
                tasks := w.tasks ++
                  [(w.nextId, .timer tok (if (300 : ℚ) < w.ctrl.rangeKm then 15000 else 6000))],
                timerRef := some w.nextId, nextId := w.nextId + 1 },
       [.log .INFO "Scan Complete - Sector Clear", .snapshot 0 .SCANNING p]) := by
    subst htok
    simp [runContFn, scheduleNext]
  refine ⟨rfl, rfl, ?_, ?_, ?_, ?_, ?_, ?_, ?_⟩
  · rw [hfirst, hfail]
  · rw [hfirst]
  · simp [executeFetchStrategyResult, hac, jsOr, asArray]
  · simp [executeFetchStrategyResult, hstates, jsOr, asArray]
  · rw [hs]
  · rw [hs]
  · rw [hs]

theorem malformed_response_handling_witness :
    executeFetchStrategyResult "ADSB_LOL" true none = .error .parseFail ∧
    executeFetchStrategyResult "ADSB_LOL" true (some (.obj [])) = .ok [] :=
  have h := malformed_response_handling
    { initWorld with ctrl := { initCtrl with state := .SCANNING } }
    0 "ADSB_LOL" (.obj []) (by decide) (by decide) (by decide) rfl rfl
  ⟨h.1, h.2.2.2.2.1⟩

/-- `√3` to seven decimal places. -/
theorem sqrt3_bounds : (1.7320508 : ℝ) < Real.sqrt 3 ∧ Real.sqrt 3 < 1.7320509 := by
  have hs := Real.mul_self_sqrt (show (0:ℝ) ≤ 3 by norm_num)
  have hnn := Real.sqrt_nonneg 3
  constructor
  · nlinarith [hs, hnn]
  · nlinarith [hs, hnn]

/-- Taylor bounds for `cos` and `sin` at `π/20` (= 9°). -/
theorem cos_sin_pi20_bounds :
    (0.987631 : ℝ) ≤ Real.cos (Real.pi / 20) ∧ Real.cos (Real.pi / 20) ≤ 0.987695 ∧
    (0.156401 : ℝ) ≤ Real.sin (Real.pi / 20) ∧ Real.sin (Real.pi / 20) ≤ 0.156466 := by
  have h1 := Real.pi_gt_d6
  have h2 := Real.pi_lt_d6
  have htl : (0.1570796 : ℝ) < Real.pi / 20 := by linarith
  have htu : Real.pi / 20 < 0.15707965 := by linarith
  have htpos : (0 : ℝ) < Real.pi / 20 := by linarith
  have habs : |Real.pi / 20| ≤ 1 := by
    rw [abs_of_pos htpos]
    linarith
  have hcb := Real.cos_bound habs
  have hsb := Real.sin_bound habs
  rw [abs_of_pos htpos, abs_sub_le_iff] at hcb hsb
  obtain ⟨hcb1, hcb2⟩ := hcb
  obtain ⟨hsb1, hsb2⟩ := hsb
  have ht2l : (0.024674 : ℝ) < (Real.pi / 20) ^ 2 := by nlinarith
  have ht2u : (Real.pi / 20) ^ 2 < 0.0246741 := by nlinarith
  have ht3l : (0.0038757 : ℝ) < (Real.pi / 20) ^ 3 := by nlinarith
  have ht3u : (Real.pi / 20) ^ 3 < 0.0038759 := by nlinarith
  have ht4u : (Real.pi / 20) ^ 4 < 0.0006089 := by nlinarith
  have ht4l : (0 : ℝ) ≤ (Real.pi / 20) ^ 4 := by positivity
  refine ⟨by nlinarith, by nlinarith, by nlinarith, by nlinarith⟩

/-- `cos 51° = cos (π/3 − π/20)`, bounded via the angle-difference
formula. -/
theorem cos_51deg_bounds :
    (0.62925 : ℝ) ≤ Real.cos (Real.pi * 17 / 60) ∧
    Real.cos (Real.pi * 17 / 60) ≤ 0.62937 := by
  have hang : Real.pi * 17 / 60 = Real.pi / 3 - Real.pi / 20 := by ring
  rw [hang, Real.cos_sub, Real.cos_pi_div_three, Real.sin_pi_div_three]
  obtain ⟨hc1, hc2, hs1, hs2⟩ := cos_sin_pi20_bounds
  obtain ⟨hr1, hr2⟩ := sqrt3_bounds
  constructor
  · nlinarith [mul_nonneg (by linarith : (0:ℝ) ≤ Real.sqrt 3 - 1.7320508)
      (by linarith : (0:ℝ) ≤ Real.sin (Real.pi / 20) - 0.156401)]
  · nlinarith [mul_nonneg (by linarith : (0:ℝ) ≤ 1.7320509 - Real.sqrt 3)
      (by linarith : (0:ℝ) ≤ 0.156466 - Real.sin (Real.pi / 20))]

/-- The worked example's x coordinate in closed form:
`0.02 × 111320 × cos(51°)`. -/
theorem c8Target_x_eq : c8Target.x = 2226.4 * Real.cos (Real.pi * 17 / 60) := by
  have h0 : c8Target.x =
      (((0.02 : ℚ) : ℝ) - ((0 : ℚ) : ℝ)) *
        (111320 * Real.cos (((51 : ℚ) : ℝ) * Real.pi / 180)) := rfl
  rw [h0, show (((51 : ℚ) : ℝ) * Real.pi / 180) = Real.pi * 17 / 60 by push_cast; ring]
  push_cast
  ring

/-- Numeric interval for the worked example's x coordinate. -/
theorem c8x_bounds : (1400.9 : ℝ) ≤ c8Target.x ∧ c8Target.x ≤ 1401.3 := by
  rw [c8Target_x_eq]
  obtain ⟨h1, h2⟩ := cos_51deg_bounds
  constructor <;> nlinarith

/-- C8 counterexample: for the worked example the normalizer's x
coordinate is `0.02 × 111320 × cos(51°) ≈ 1401.1 m`, more than 8 m away
from the claimed `x ≈ 1392 m` (every other claimed component matches to
under one unit, so 8 m is far outside the example's implied tolerance);
the claimed value is inconsistent with the projection formula the claim
itself states. -/
theorem projection_example_x_off :
    processTarget 51 0 c8Item = some c8Target ∧ 8 < |c8Target.x - 1392| := by
  refine ⟨rfl, ?_⟩
  obtain ⟨h1, h2⟩ := c8x_bounds
  calc (8 : ℝ) < c8Target.x - 1392 := by linarith
    _ ≤ |c8Target.x - 1392| := le_abs_self _

/-- C8 (amended): for origin (51, 0) and the record (lat 51.01,
lon 0.02, altitude 35000 ft, speed 450 kn, heading 90°) the normalizer
produces x ≈ 1401 m (within [1400.9, 1401.3]), y = 1105.74 m,
altitude = 10668 m, and velocity (231.4998, 0) m/s. -/
theorem projection_example_values :
    processTarget 51 0 c8Item = some c8Target ∧
    (1400.9 : ℝ) ≤ c8Target.x ∧ c8Target.x ≤ 1401.3 ∧
    c8Target.y = 1105.74 ∧
    c8Target.altitude = 10668 ∧
    c8Target.vx = 231.4998 ∧
    c8Target.vy = 0 := by
  refine ⟨rfl, c8x_bounds.1, c8x_bounds.2, ?_, ?_, ?_, ?_⟩
  · have h0 : c8Target.y = (((51.01 : ℚ) : ℝ) - ((51 : ℚ) : ℝ)) * 110574 := rfl
    rw [h0]
    push_cast
    norm_num
  · have h0 : c8Target.altitude = (((35000 : ℚ) : ℚ) : ℝ) * 0.3048 := rfl
    rw [h0]
    norm_num
  · have h0 : c8Target.vx = (((450 : ℚ) : ℝ) * 0.514444) *
        Real.sin (((90 : ℚ) : ℝ) * Real.pi / 180) := rfl
    rw [h0, show (((90 : ℚ) : ℝ) * Real.pi / 180) = Real.pi / 2 by push_cast; ring,
        Real.sin_pi_div_two]
    norm_num
  · have h0 : c8Target.vy = (((450 : ℚ) : ℝ) * 0.514444) *
        Real.cos (((90 : ℚ) : ℝ) * Real.pi / 180) := rfl
    rw [h0, show (((90 : ℚ) : ℝ) * Real.pi / 180) = Real.pi / 2 by push_cast; ring,
        Real.cos_pi_div_two]
    norm_num

end FlightRadar
